import Mathlib

/-!
Verification of the agent execution engine of `cracked99/opencode`
(`internal/llm/agent/agent.go`): the run coordinator, conversation loop,
stream event processor, tool dispatcher, usage accountant and
summarization sub-flow.  Go code is shallowly embedded as executable Lean
functions; the external collaborators (provider streams, tool
implementations, the message/session store and the behavioral framework)
are abstracted as explicit environment records, exactly at the points
where the agent code consumes them.  Monetary amounts (`float64` in Go)
are modelled as rationals.
-/

namespace OpenCode

/-- Roles of messages (`message.User`, `message.Assistant`, `message.Tool`). -/
inductive Role
  | user
  | assistant
  | tool
deriving DecidableEq, Repr

/-- Finish reasons on an assistant message (`message.FinishReason`). -/
inductive FinishReason
  | endTurn
  | toolUse
  | canceled
  | permissionDenied
  | unknown
deriving DecidableEq, Repr

/-- A tool call announced by the model (`message.ToolCall`). -/
structure ToolCall where
  id : String
  name : String
  input : String
  finished : Bool := false
deriving DecidableEq, Repr

/-- The result of one tool call (`message.ToolResult`). -/
structure ToolResult where
  toolCallID : String
  content : String
  metadata : String := ""
  isError : Bool := false
deriving DecidableEq, Repr

/-- The Go zero value `message.ToolResult{}`, the initial content of the
`toolResults` slice allocated by `make` in `streamAndHandleEvents`. -/
def zeroToolResult : ToolResult := { toolCallID := "", content := "" }

/-- One content part of a message (`message.ContentPart`). -/
inductive ContentPart
  | textContent (text : String)
  | reasoningContent (text : String)
  | binaryContent (path mimeType : String)
  | toolCallPart (tc : ToolCall)
  | toolResultPart (tr : ToolResult)
  | finishPart (reason : FinishReason)
deriving DecidableEq, Repr

/-- A transcript message (`message.Message`): id, role and ordered parts. -/
structure Message where
  id : String
  role : Role
  parts : List ContentPart
deriving DecidableEq, Repr

/-- Modelled from the spec: the message collaborator's `Content().Text`
accessor (package `internal/message`, not under `src/`): the text of the
message's (first) visible-text part. -/
def Message.contentText (m : Message) : String :=
  (m.parts.findSome? fun p =>
    match p with
    | ContentPart.textContent t => some t
    | _ => none).getD ""

/-- Modelled from the spec: `Message.ToolCalls()` of the message
collaborator — the announced tool calls of the message, in order. -/
def Message.toolCalls (m : Message) : List ToolCall :=
  m.parts.filterMap fun p =>
    match p with
    | ContentPart.toolCallPart tc => some tc
    | _ => none

/-- Modelled from the spec: `Message.AddFinish` appends a finish marker.
Per the spec the dispatcher's `AddFinish(FinishReasonPermissionDenied)`
"sets the assistant message's finish reason", so the reported reason is
the last marker added (see `Message.finishReason`). -/
def Message.addFinish (m : Message) (r : FinishReason) : Message :=
  { m with parts := m.parts ++ [ContentPart.finishPart r] }

/-- Modelled from the spec: `Message.FinishReason()` — the reason of the
most recently added finish marker, `unknown` when the message is not yet
finished. -/
def Message.finishReason (m : Message) : FinishReason :=
  (m.parts.reverse.findSome? fun p =>
    match p with
    | ContentPart.finishPart r => some r
    | _ => none).getD FinishReason.unknown

/-- Modelled from the spec: `AppendContent` appends a delta to the
message's visible text (extending the first text part, creating it when
absent). -/
def Message.appendContent (m : Message) (delta : String) : Message :=
  if m.parts.any (fun p => match p with
      | ContentPart.textContent _ => true
      | _ => false) then
    { m with parts := (m.parts.foldr (fun p (st : Bool × List ContentPart) =>
        match p, st.1 with
        | ContentPart.textContent t, false => (true, ContentPart.textContent (t ++ delta) :: st.2)
        | p, b => (b, p :: st.2)) (false, [])).2 }
  else
    { m with parts := m.parts ++ [ContentPart.textContent delta] }

/-- Modelled from the spec: `AppendReasoningContent` appends a thinking
delta to the separate reasoning buffer. -/
def Message.appendReasoningContent (m : Message) (delta : String) : Message :=
  { m with parts := m.parts ++ [ContentPart.reasoningContent delta] }

/-- Modelled from the spec: `AddToolCall` registers a new pending tool
call announced by a tool-use-start event. -/
def Message.addToolCall (m : Message) (tc : ToolCall) : Message :=
  { m with parts := m.parts ++ [ContentPart.toolCallPart tc] }

/-- Modelled from the spec: `FinishToolCall` marks the tool call with the
given id as having its input fully streamed. -/
def Message.finishToolCall (m : Message) (tcid : String) : Message :=
  { m with parts := m.parts.map fun p =>
      match p with
      | ContentPart.toolCallPart tc =>
          if tc.id = tcid then ContentPart.toolCallPart { tc with finished := true }
          else ContentPart.toolCallPart tc
      | p => p }

/-- Modelled from the spec: `SetToolCalls` finalizes the tool-call list
from the provider's complete event, replacing the pending calls. -/
def Message.setToolCalls (m : Message) (tcs : List ToolCall) : Message :=
  { m with parts := (m.parts.filter fun p =>
      match p with
      | ContentPart.toolCallPart _ => false
      | _ => true) ++ tcs.map ContentPart.toolCallPart }

/-- Token usage of one completed stream (`provider.TokenUsage`). -/
structure TokenUsage where
  inputTokens : Nat
  outputTokens : Nat
  cacheCreationTokens : Nat
  cacheReadTokens : Nat
deriving DecidableEq, Repr

/-- The active model's published attributes used by the agent
(`models.Model`); prices are per one million tokens, modelled as
rationals. -/
structure Model where
  costPer1MIn : ℚ := 0
  costPer1MOut : ℚ := 0
  costPer1MInCached : ℚ := 0
  costPer1MOutCached : ℚ := 0
  supportsAttachments : Bool := true
deriving DecidableEq, Repr

/-- A session record (`session.Session`): running cost, cumulative token
counters and the optional summary marker (`SummaryMessageID`). -/
structure Session where
  id : String
  title : String := ""
  cost : ℚ := 0
  promptTokens : Nat := 0
  completionTokens : Nat := 0
  summaryMessageID : String := ""
deriving DecidableEq, Repr

/-- A user-turn attachment (`message.Attachment`). -/
structure Attachment where
  filePath : String
  mimeType : String
  content : String := ""
deriving DecidableEq, Repr

/-- Kinds of `AgentEvent` (`AgentEventType`). -/
inductive AgentEventType
  | error
  | response
  | summarize
deriving DecidableEq, Repr

/-- A published lifecycle event (`AgentEvent`).  Errors are carried as
their message strings. -/
structure AgentEvent where
  type : AgentEventType
  message : Option Message := none
  error : Option String := none
  sessionID : String := ""
  progress : String := ""
  done : Bool := false
deriving DecidableEq, Repr

/-- `a.err(err)`: wrap an error into an error-typed `AgentEvent`. -/
def errEvent (e : String) : AgentEvent :=
  { type := AgentEventType.error, error := some e }

/-- The message of `ErrSessionBusy`. -/
def errSessionBusy : String := "session is currently processing another request"

/-- The message of `ErrRequestCancelled`. -/
def errRequestCancelled : String := "request cancelled by user"

/-! ## Active-request registry (`agent.activeRequests`, a `sync.Map`)

Entries map a concurrency key (session id, or session id + "-summarize")
to a cancellation handle; handles are identified by natural numbers.  The
`sync.Map` is modelled as an association list on which `Store` keeps keys
unique. -/

/-- The active-request registry. -/
abbrev Registry := List (String × Nat)

/-- `sync.Map.Load`: the handle currently registered under a key. -/
def Registry.load : Registry → String → Option Nat
  | [], _ => none
  | e :: r, k => if e.1 = k then some e.2 else Registry.load r k

/-- `sync.Map.Delete`: drop the entry with the given key. -/
def Registry.del : Registry → String → Registry
  | [], _ => []
  | e :: r, k => if e.1 = k then Registry.del r k else e :: Registry.del r k

/-- `sync.Map.Store`: register a handle under a key. -/
def Registry.store (r : Registry) (k : String) (v : Nat) : Registry :=
  r.del k ++ [(k, v)]

/-- `sync.Map.LoadAndDelete`: atomically read and drop an entry. -/
def Registry.loadAndDelete (r : Registry) (k : String) : Option Nat × Registry :=
  (r.load k, r.del k)

/-- `agent.IsSessionBusy`: non-blocking read of the plain session key. -/
def IsSessionBusy (r : Registry) (sessionID : String) : Bool :=
  (r.load sessionID).isSome

/-- `agent.Cancel(sessionID)`: `LoadAndDelete` the plain key and the
`"-summarize"` key, invoking each cancellation handle found.  Returns the
updated registry together with the list of invoked handles; the Go method
has no return value, so it can never itself report an error. -/
def Cancel (r : Registry) (sessionID : String) : Registry × List Nat :=
  let p1 := r.loadAndDelete sessionID
  let p2 := p1.2.loadAndDelete (sessionID ++ "-summarize")
  (p2.2, p1.1.toList ++ p2.1.toList)

/-! ## Run coordinator (`agent.Run`) -/

/-- How the asynchronous execution unit started by `Run` finishes: either
`processGeneration` returns a terminal `AgentEvent`, or a panic occurs
inside the unit body and is caught by the deferred `RecoverPanic`. -/
inductive UnitBody
  | finish (result : AgentEvent)
  | panicked
deriving DecidableEq, Repr

/-- The generic error event sent by the deferred panic handler
(`a.err(fmt.Errorf("panic while running the agent"))`). -/
def panicErrorEvent : AgentEvent := errEvent "panic while running the agent"

/-- Everything observable about one `Run` call once its execution unit
(if any) has finished: the final registry, the events delivered on the
returned stream together with whether the stream was closed (`none` when
no stream was returned at all), the error returned by `Run` itself, the
events published to subscribers, the number of registry `Delete` calls
executed, and whether the execution unit ran. -/
structure RunResult where
  registry : Registry
  stream : Option (List AgentEvent × Bool)
  runError : Option String
  published : List AgentEvent
  deletes : Nat
  unitRan : Bool
deriving DecidableEq, Repr

/-- `agent.Run(ctx, sessionID, content, attachments...)`.  The
conversation loop `processGeneration` is abstracted as the environment
`gen`, mapping the content and the attachment parts built by the
goroutine to how the unit body finishes.  Mirrors the source: attachments
are dropped up front when the model does not support them; a busy plain
key fails with `ErrSessionBusy` before anything is registered; otherwise
the cancellation handle is stored, the unit runs, and on a normal finish
the entry is deleted, the terminal event is published and delivered and
the stream closed — while on a panic only the deferred recovery's error
event is sent. -/
def Run (model : Model) (reg : Registry) (handle : Nat)
    (gen : String → List ContentPart → UnitBody)
    (sessionID content : String) (attachments : List Attachment) : RunResult :=
  let attachments :=
    if ¬ model.supportsAttachments ∧ attachments ≠ [] then [] else attachments
  if IsSessionBusy reg sessionID then
    { registry := reg, stream := none, runError := some errSessionBusy,
      published := [], deletes := 0, unitRan := false }
  else
    let reg1 := reg.store sessionID handle
    let attachmentParts := attachments.map fun att =>
      ContentPart.binaryContent att.filePath att.mimeType
    match gen content attachmentParts with
    | UnitBody.finish result =>
        { registry := reg1.del sessionID, stream := some ([result], true),
          runError := none, published := [result], deletes := 1, unitRan := true }
    | UnitBody.panicked =>
        { registry := reg1, stream := some ([panicErrorEvent], false),
          runError := none, published := [], deletes := 0, unitRan := true }

/-! ## Tool dispatcher (the tool-call loop of `streamAndHandleEvents`)

The Go loop iterates over the announced tool calls with a `select` whose
`default` branch resolves and executes each call.  Go's `break` inside a
`select` terminates the `select`, not the surrounding `for` — the
embedding reproduces exactly that control flow. -/

/-- Outcome of `tool.Run` for one call: either the distinguished
permission-denied error (`permission.ErrorPermissionDenied`), or the
returned `tools.ToolResponse` fields (any non-distinguished execution
error is folded into these fields by the source, which reads
`toolResult.Content`/`Metadata`/`IsError` regardless). -/
inductive ToolExec
  | denied
  | result (content metadata : String) (isError : Bool)
deriving DecidableEq, Repr

/-- Environment of one dispatch round: whether the run's context is
already cancelled when call `i` is reached, which tool names resolve
against the capability set `a.tools`, and what executing call `i`
yields. -/
structure DispatchEnv where
  canceledAt : Nat → Bool
  found : String → Bool
  exec : Nat → ToolExec

/-- The cancelled result written for skipped calls. -/
def canceledToolResult (tc : ToolCall) : ToolResult :=
  { toolCallID := tc.id, content := "Tool execution canceled by user", isError := true }

/-- The inner `for j := start; j < len(toolCalls); j++` loops that
overwrite every result from `start` on with a cancelled result. -/
def markCanceledFrom (toolCalls : List ToolCall) (results : List ToolResult)
    (start : Nat) : List ToolResult :=
  results.mapIdx fun j r =>
    if start ≤ j then
      canceledToolResult (toolCalls.getD j { id := "", name := "", input := "" })
    else r

/-- The dispatch loop over the enumerated tool calls.  State: the
`toolResults` slice (allocated zero-filled), the assistant message, and
the indices whose capability was actually executed (`tool.Run` called).
The permission-denied branch records the denied result, overwrites the
later slots with cancelled results, finishes the message with
`FinishReasonPermissionDenied` and then executes `break` — which in Go
only exits the enclosing `select`, so iteration continues with the next
call. -/
def dispatchGo (env : DispatchEnv) (toolCalls : List ToolCall) :
    List (Nat × ToolCall) → List ToolResult → Message → List Nat →
    List ToolResult × Message × List Nat
  | [], results, msg, executed => (results, msg, executed)
  | (i, tc) :: rest, results, msg, executed =>
    if env.canceledAt i then
      -- ctx.Done(): finish as cancelled, cancel all remaining results, goto out
      (markCanceledFrom toolCalls results i,
       msg.addFinish FinishReason.canceled, executed)
    else if ¬ env.found tc.name then
      dispatchGo env toolCalls rest
        (results.set i
          { toolCallID := tc.id, content := "Tool not found: " ++ tc.name, isError := true })
        msg executed
    else
      match env.exec i with
      | ToolExec.denied =>
          dispatchGo env toolCalls rest
            (markCanceledFrom toolCalls
              (results.set i
                { toolCallID := tc.id, content := "Permission denied", isError := true })
              (i + 1))
            (msg.addFinish FinishReason.permissionDenied) (executed ++ [i])
      | ToolExec.result content metadata isError =>
          dispatchGo env toolCalls rest
            (results.set i
              { toolCallID := tc.id, content := content, metadata := metadata,
                isError := isError })
            msg (executed ++ [i])

/-- One dispatch round over a round's announced tool calls, starting from
the just-finished assistant message: the `N` tool results in call order,
the assistant message after the round, and the executed call indices. -/
def streamDispatch (env : DispatchEnv) (toolCalls : List ToolCall) (assistantMsg : Message) :
    List ToolResult × Message × List Nat :=
  dispatchGo env toolCalls toolCalls.enum
    (toolCalls.map fun _ => zeroToolResult) assistantMsg []

/-! ## Usage/cost accountant (`agent.TrackUsage`) and stream event
processor (`agent.processEvent`) -/

/-- The cost delta computed by `TrackUsage` (and repeated inline by
`Summarize`), with prices per one million tokens. -/
def costDelta (model : Model) (usage : TokenUsage) : ℚ :=
  model.costPer1MInCached / 1000000 * (usage.cacheCreationTokens : ℚ) +
  model.costPer1MOutCached / 1000000 * (usage.cacheReadTokens : ℚ) +
  model.costPer1MIn / 1000000 * (usage.inputTokens : ℚ) +
  model.costPer1MOut / 1000000 * (usage.outputTokens : ℚ)

/-- `agent.TrackUsage`: add the cost delta to the session's running cost
and reset the cumulative token counters; the updated session is then
persisted by the caller-side `sessions.Save`. -/
def TrackUsage (model : Model) (usage : TokenUsage) (sess : Session) : Session :=
  { sess with
    cost := sess.cost + costDelta model usage,
    completionTokens := usage.outputTokens + usage.cacheReadTokens,
    promptTokens := usage.inputTokens + usage.cacheCreationTokens }

/-- One provider stream event (`provider.ProviderEvent`). -/
inductive ProviderEvent
  | eventThinkingDelta (content : String)
  | eventContentDelta (content : String)
  | eventToolUseStart (tc : ToolCall)
  | eventToolUseStop (tcid : String)
  | eventError (isCancellation : Bool) (msg : String)
  | eventComplete (toolCalls : List ToolCall) (finishReason : FinishReason) (usage : TokenUsage)
deriving DecidableEq, Repr

/-- Whether an event is the stream-complete event. -/
def ProviderEvent.isComplete : ProviderEvent → Bool
  | ProviderEvent.eventComplete _ _ _ => true
  | _ => false

/-- Errors with which `processEvent` can abort the stream. -/
inductive StreamErr
  | canceled
  | providerError (msg : String)
deriving DecidableEq, Repr

/-- State threaded through `processEvent`: the in-flight assistant
message, the session, and the sessions handed to `sessions.Save` so far
(the accountant's persistence calls). -/
structure EventState where
  assistantMsg : Message
  sess : Session
  sessionSaves : List Session
deriving DecidableEq, Repr

/-- `agent.processEvent`: apply one provider event to the in-flight
assistant message.  The cancellation check at the top mirrors the
`select` on `ctx.Done()`; the complete event finalizes the tool-call
list and finish reason and invokes `TrackUsage`, which persists the
updated session — the only event kind that touches the session. -/
def processEvent (model : Model) (ctxCanceled : Bool) (st : EventState)
    (ev : ProviderEvent) : Except StreamErr EventState :=
  if ctxCanceled then Except.error StreamErr.canceled
  else
    match ev with
    | ProviderEvent.eventThinkingDelta c =>
        Except.ok { st with assistantMsg := st.assistantMsg.appendReasoningContent c }
    | ProviderEvent.eventContentDelta c =>
        Except.ok { st with assistantMsg := st.assistantMsg.appendContent c }
    | ProviderEvent.eventToolUseStart tc =>
        Except.ok { st with assistantMsg := st.assistantMsg.addToolCall tc }
    | ProviderEvent.eventToolUseStop tcid =>
        Except.ok { st with assistantMsg := st.assistantMsg.finishToolCall tcid }
    | ProviderEvent.eventError true _ => Except.error StreamErr.canceled
    | ProviderEvent.eventError false m => Except.error (StreamErr.providerError m)
    | ProviderEvent.eventComplete tcs fr usage =>
        let msg := (st.assistantMsg.setToolCalls tcs).addFinish fr
        let sess := TrackUsage model usage st.sess
        Except.ok { assistantMsg := msg, sess := sess,
                    sessionSaves := st.sessionSaves ++ [sess] }

/-! ## Summarization sub-flow (`agent.Summarize`) -/

/-- Environment of one summarize unit: the summarize model, and the
outcomes of the store and backend calls the unit makes, in order:
`messages.List`, `summarizeProvider.SendMessages` (response content and
usage), `sessions.Get`, `messages.Create` (the created summary message)
and `sessions.Save`. -/
structure SummarizeEnv where
  model : Model
  listResult : Except String (List Message)
  sendResult : Except String (String × TokenUsage)
  getResult : Except String Session
  createResult : Except String Message
  saveResult : Except String Unit

/-- Go's `strings.TrimSpace`: strip leading and trailing whitespace. -/
def trimSpace (s : String) : String :=
  String.mk (((s.data.dropWhile Char.isWhitespace).reverse.dropWhile
    Char.isWhitespace).reverse)

/-- A summarize progress event. -/
def summarizeProgress (p : String) : AgentEvent :=
  { type := AgentEventType.summarize, progress := p }

/-- A terminal summarize error event (`Done: true`). -/
def summarizeErrorEvent (e : String) : AgentEvent :=
  { type := AgentEventType.error, error := some e, done := true }

/-- The goroutine body of `agent.Summarize`, after the wrapper's
admission checks: the published events in order, and the sessions handed
to `sessions.Save`.  The fixed summarization instruction appended as a
synthetic user turn and the augmented transcript are absorbed into the
abstract `sendResult`.  Mirrors the source exactly, including the
missing `return` after a failed `sessions.Save`: the error event is
published and the `Done: true` "Summary complete" event is still
published right after it. -/
def summarizeUnit (env : SummarizeEnv) (sessionID : String) :
    List AgentEvent × List Session :=
  let ev0 := summarizeProgress "Starting summarization..."
  match env.listResult with
  | Except.error e => ([ev0, summarizeErrorEvent ("failed to list messages: " ++ e)], [])
  | Except.ok msgs =>
    if msgs.isEmpty then
      ([ev0, summarizeErrorEvent "no messages to summarize"], [])
    else
      let ev1 := summarizeProgress "Analyzing conversation..."
      let ev2 := summarizeProgress "Generating summary..."
      match env.sendResult with
      | Except.error e =>
          ([ev0, ev1, ev2, summarizeErrorEvent ("failed to summarize: " ++ e)], [])
      | Except.ok response =>
        let summary := trimSpace response.1
        if summary = "" then
          ([ev0, ev1, ev2, summarizeErrorEvent "empty summary returned"], [])
        else
          let ev3 := summarizeProgress "Creating new session..."
          match env.getResult with
          | Except.error e =>
              ([ev0, ev1, ev2, ev3, summarizeErrorEvent ("failed to get session: " ++ e)], [])
          | Except.ok oldSession =>
            match env.createResult with
            | Except.error e =>
                ([ev0, ev1, ev2, ev3,
                  summarizeErrorEvent ("failed to create summary message: " ++ e)], [])
            | Except.ok msg =>
              let usage := response.2
              let sess : Session := { oldSession with
                summaryMessageID := msg.id,
                completionTokens := usage.outputTokens,
                promptTokens := 0,
                cost := oldSession.cost + costDelta env.model usage }
              let doneEvent : AgentEvent :=
                { type := AgentEventType.summarize, sessionID := oldSession.id,
                  progress := "Summary complete", done := true }
              match env.saveResult with
              | Except.error e =>
                  ([ev0, ev1, ev2, ev3,
                    summarizeErrorEvent ("failed to save session: " ++ e), doneEvent], [sess])
              | Except.ok _ =>
                  ([ev0, ev1, ev2, ev3, doneEvent], [sess])

/-- `agent.Summarize` wrapper: fail fast when the summarize provider is
unavailable or the session is busy under the plain key, otherwise
register the cancellation handle under the `"-summarize"` key, run the
unit (whose deferred calls remove the entry again) and return its
trace. -/
def Summarize (reg : Registry) (hasSummarizeProvider : Bool) (handle : Nat)
    (env : SummarizeEnv) (sessionID : String) :
    Except String (Registry × List AgentEvent × List Session) :=
  if ¬ hasSummarizeProvider then Except.error "summarize provider not available"
  else if IsSessionBusy reg sessionID then Except.error errSessionBusy
  else
    let reg1 := reg.store (sessionID ++ "-summarize") handle
    let t := summarizeUnit env sessionID
    Except.ok (reg1.del (sessionID ++ "-summarize"), t.1, t.2)

/-! ## Behavioral framework integration (`processGeneration` start phase)

`behavioral.ProblemType` and `behavioral.EnhancementType` are Go `int`
types; the agent converts a `ProblemType` to a string with Go's
code-point conversion `string(metadata.ProblemType)`. -/

/-- `behavioral.ProblemType` (an `int`; `iota` constants below). -/
abbrev ProblemType := Int

/-- `behavioral.TechnicalIssue`. -/
def technicalIssue : ProblemType := 0

/-- `behavioral.ProcessImprovement`. -/
def processImprovement : ProblemType := 1

/-- `behavioral.DecisionMaking`. -/
def decisionMaking : ProblemType := 2

/-- `behavioral.Troubleshooting`. -/
def troubleshooting : ProblemType := 3

/-- `behavioral.CodeGeneration`. -/
def codeGeneration : ProblemType := 4

/-- `behavioral.Analysis`. -/
def analysisProblem : ProblemType := 5

/-- `behavioral.General`. -/
def generalProblem : ProblemType := 6

/-- `behavioral.StandardProcessing` (first `EnhancementType` constant). -/
def standardProcessing : Int := 0

/-- Go's integer-to-string conversion `string(n)`: the one-rune string of
the code point `n`, or the replacement character for an invalid code
point. -/
def goStringOfInt (n : Int) : String :=
  if 0 ≤ n ∧ Nat.isValidChar n.toNat then String.mk [Char.ofNat n.toNat]
  else "�"

/-- `behavioral.QualityMetrics` (float64 fields as rationals). -/
structure QualityMetrics where
  expectedImprovement : ℚ := 0
  confidenceLevel : ℚ := 0
  qualityScore : ℚ := 0
  consistencyScore : ℚ := 0
deriving DecidableEq, Repr

/-- `behavioral.ProcessingMetadata` (the fields the agent reads). -/
structure ProcessingMetadata where
  complexityLevel : Int := 0
  toolIntensity : Int := 0
  problemType : ProblemType := 0
  enhancementReason : String := ""
  estimatedCost : ℚ := 0
deriving DecidableEq, Repr

/-- `behavioral.ProcessingResult`. -/
structure ProcessingResult where
  enhancement : Int := 0
  systemPrompt : String := ""
  behavioralPrompt : String := ""
  processingTime : Int := 0
  qualityMetrics : QualityMetrics := {}
  metadata : ProcessingMetadata := {}
  fallback : Bool := false
deriving DecidableEq, Repr

/-- `agent.getPatternTemplate`: the systematic template for a problem
type. -/
def getPatternTemplate (problemType : ProblemType) : String :=
  if problemType = technicalIssue then
    "TECHNICAL ISSUE TEMPLATE:\n1. Problem Diagnosis (identify symptoms and scope)\n2. Root Cause Analysis (systematic investigation)\n3. Solution Design (comprehensive approach)\n4. Implementation Plan (step-by-step execution)\n5. Testing Strategy (validation and verification)"
  else if problemType = codeGeneration then
    "CODE GENERATION TEMPLATE:\n1. Requirements Analysis (understand specifications)\n2. Design Architecture (plan structure and patterns)\n3. Implementation (write clean, maintainable code)\n4. Validation (test functionality and edge cases)\n5. Documentation (comments, examples, usage)"
  else if problemType = processImprovement then
    "PROCESS IMPROVEMENT TEMPLATE:\n1. Current State Assessment (analyze existing process)\n2. Gap Analysis (identify inefficiencies and issues)\n3. Recommendations (propose specific improvements)\n4. Implementation Plan (roadmap with milestones)\n5. Success Metrics (measurable outcomes)"
  else if problemType = troubleshooting then
    "TROUBLESHOOTING TEMPLATE:\n1. Symptom Analysis (gather and document issues)\n2. Hypothesis Formation (potential causes)\n3. Testing Approach (systematic verification)\n4. Solution Implementation (fix root cause)\n5. Prevention Strategy (avoid future occurrences)"
  else
    "GENERAL SYSTEMATIC TEMPLATE:\n1. Problem Understanding (clarify requirements)\n2. Analysis (break down complexity)\n3. Solution Design (comprehensive approach)\n4. Implementation (step-by-step execution)\n5. Validation (verify results and quality)"

/-- `agent.getQualityValidationChecklist`: quality checklist by
complexity level. -/
def getQualityValidationChecklist (complexityLevel : Int) : String :=
  let baseChecklist := "MANDATORY QUALITY VALIDATION CHECKLIST:\n☐ Clear problem understanding demonstrated (>90% accuracy)\n☐ Systematic approach explained (>85% clarity)\n☐ Specific, actionable recommendations provided (>80% actionability)\n☐ Realistic timelines and resources considered (>80% completeness)\n☐ Potential risks or limitations acknowledged (>75% coverage)"
  if complexityLevel ≥ 7 then
    baseChecklist ++ "\n☐ Advanced error handling and edge cases covered (>85% coverage)\n☐ Performance optimization considerations included (>80% efficiency)\n☐ Security implications addressed (>90% security coverage)\n☐ Scalability and maintainability factors considered (>85% future-proof)"
  else if complexityLevel ≥ 4 then
    baseChecklist ++ "\n☐ Error handling and common edge cases covered (>75% coverage)\n☐ Basic performance considerations included (>70% efficiency)"
  else
    baseChecklist

/-- `agent.getComplexityDescription`. -/
def getComplexityDescription (level : Int) : String :=
  if level ≤ 2 then "Simple directive"
  else if level ≤ 4 then "Moderate complexity"
  else if level ≤ 6 then "Complex analysis required"
  else if level ≤ 8 then "Multi-step complex task"
  else "Highly complex multi-system task"

/-- `agent.getToolIntensityDescription`. -/
def getToolIntensityDescription (intensity : Int) : String :=
  if intensity = 0 then "No tools required"
  else if intensity = 1 then "Basic tool usage"
  else if intensity = 2 then "Moderate tool integration"
  else if intensity = 3 then "Advanced tool coordination"
  else if intensity = 4 then "Complex tool orchestration"
  else "Maximum tool utilization"

/-- `agent.getQualityRequirement`. -/
def getQualityRequirement (complexity : Int) : String :=
  if complexity ≤ 3 then "Standard"
  else if complexity ≤ 6 then "High"
  else "Critical"

/-- `agent.getTemplateDescription`. -/
def getTemplateDescription (problemType : ProblemType) : String :=
  if problemType = technicalIssue then
    "Problem Diagnosis → Root Cause → Solution → Implementation → Testing"
  else if problemType = codeGeneration then
    "Requirements → Design → Implementation → Validation → Documentation"
  else if problemType = processImprovement then
    "Current State → Gap Analysis → Recommendations → Plan → Metrics"
  else if problemType = troubleshooting then
    "Symptoms → Hypothesis → Testing → Solution → Prevention"
  else
    "Analysis → Solution → Implementation → Validation"

/-- `agent.createFallbackBehavioralResult`: the fallback behavioral
result applied when framework processing fails or times out.  The
`content` parameter is unused in the source as well. -/
def createFallbackBehavioralResult (_content : String) : ProcessingResult :=
  { enhancement := standardProcessing,
    systemPrompt := "Apply systematic thinking and quality validation to your response.",
    behavioralPrompt := "FALLBACK BEHAVIORAL DIRECTIVES:\n- Apply systematic organization to your response\n- Provide clear, actionable recommendations\n- Include appropriate error handling where applicable\n- Validate response quality before delivery",
    processingTime := 0,
    qualityMetrics :=
      { expectedImprovement := 1/10, confidenceLevel := 3/4,
        qualityScore := 4/5, consistencyScore := 3/4 },
    metadata :=
      { complexityLevel := 3, toolIntensity := 1, problemType := generalProblem,
        enhancementReason := "Fallback processing due to framework timeout or error",
        estimatedCost := 1 },
    fallback := true }

/-- `agent.generateFrameworkStatusIndicator`: the status text grafted
into the enhanced user message.  The `GetEnhancementName` value computed
first in the source is immediately overwritten by the `if` chain and is
therefore omitted. -/
def generateFrameworkStatusIndicator (metadata : ProcessingMetadata) : String :=
  let enhancementName :=
    if metadata.complexityLevel ≤ 3 then "Standard Processing"
    else if metadata.complexityLevel ≤ 6 then "Reflexion Enhancement"
    else if metadata.complexityLevel ≤ 8 then "ReAct Enhancement"
    else "Combined Enhancement"
  let costMultiplier :=
    if metadata.complexityLevel ≤ 3 then "1x"
    else if metadata.complexityLevel ≤ 6 then "2-3x"
    else if metadata.complexityLevel ≤ 8 then "2-4x"
    else "5-15x"
  let timeLimit :=
    if metadata.complexityLevel ≤ 3 then "60 seconds"
    else if metadata.complexityLevel ≤ 6 then "120-180 seconds"
    else if metadata.complexityLevel ≤ 8 then "180-240 seconds"
    else "600-900 seconds"
  let sections :=
    if metadata.complexityLevel ≤ 3 then "Sections 1-5 (Core Framework)"
    else if metadata.complexityLevel ≤ 6 then "Sections 1-5 + 6-11 (Core + Reflexion)"
    else if metadata.complexityLevel ≤ 8 then "Sections 1-5 + 12-17 (Core + ReAct)"
    else "Sections 1-24 (Complete Framework)"
  let problemTypeStr0 := goStringOfInt metadata.problemType
  let problemTypeStr := if problemTypeStr0 = "" then "General" else problemTypeStr0
  "FRAMEWORK STATUS: The \"Practical Prompt Engineering Framework v1.6.0\" is now ACTIVE and applying mandatory behavioral directives.\n\nEXECUTING IMMEDIATE BEHAVIORAL REQUIREMENTS (within 15 seconds):\n\nENHANCEMENT SELECTION DECISION TREE - MANDATORY EXECUTION:\n- Analyzing request complexity and requirements\n- Complexity Level: "
    ++ toString metadata.complexityLevel ++ " (" ++ getComplexityDescription metadata.complexityLevel
    ++ ")\n- Tool Intensity: " ++ toString metadata.toolIntensity ++ " ("
    ++ getToolIntensityDescription metadata.toolIntensity
    ++ ")\n- Quality Requirements: " ++ getQualityRequirement metadata.complexityLevel
    ++ "\n- DECISION: EXECUTE " ++ enhancementName ++ " (" ++ costMultiplier
    ++ " cost) within " ++ timeLimit ++ "\n- APPLYING: " ++ sections
    ++ "\n\nMANDATORY PATTERN RECOGNITION EXECUTION:\n- Pattern Detected: " ++ problemTypeStr
    ++ "\n- Template Applied: " ++ getTemplateDescription metadata.problemType
    ++ "\n- IMPLEMENTATION: Framework behavioral directives are ACTIVE and being applied\n\nMANDATORY PRE-RESPONSE VALIDATION:\n☐ Clear Problem Understanding: ✅ Framework analyzing request systematically\n☐ Systematic Approach: ✅ Enhancement selection decision tree executed\n☐ Actionable Recommendations: ✅ Appropriate enhancement protocol selected\n☐ Realistic Considerations: ✅ Framework provides 15-25% organization improvement\n☐ Limitations Acknowledged: ✅ Effectiveness depends on problem complexity and context\n\nRESULT: Framework is ACTIVE and mandatory behavioral directives are being applied to enhance response quality, organization, and consistency."

/-- The last index of a user-role message, mirroring the downward search
loop in `injectBehavioralDirectives` (`-1`, i.e. `none`, when absent). -/
def lastUserMsgIndexOf : List Message → Option Nat
  | [] => none
  | m :: rest =>
    match lastUserMsgIndexOf rest with
    | some j => some (j + 1)
    | none => if m.role = Role.user then some 0 else none

/-- The enhanced user-message content assembled by
`injectBehavioralDirectives` (the `fmt.Sprintf` template). -/
def enhancedContentOf (frameworkStatus originalContent behavioralPrompt
    patternTemplate qualityChecklist : String) : String :=
  "CRITICAL INSTRUCTION: You MUST start your response with exactly this text:\n\n\"FRAMEWORK STATUS: The Practical Prompt Engineering Framework v1.6.0 is now ACTIVE and applying mandatory behavioral directives.\"\n\nThen include this status information:\n"
    ++ frameworkStatus ++ "\n\nThen answer this request: " ++ originalContent
    ++ "\n\nApply these behavioral directives:\n" ++ behavioralPrompt
    ++ "\n\nFollow this pattern template:\n" ++ patternTemplate
    ++ "\n\nValidate against this checklist:\n" ++ qualityChecklist

/-- `agent.injectBehavioralDirectives`: graft behavioral directives onto
the last user message, replacing its parts with a single enhanced text
part.  The variadic `metadata` parameter is always passed exactly one
element at the call site, so it is modelled as a plain argument (the
`len(metadata) > 0` branch). -/
def injectBehavioralDirectives (msgHistory : List Message)
    (behavioralPrompt : String) (metadata : ProcessingMetadata) : List Message :=
  if msgHistory = [] then msgHistory
  else
    match lastUserMsgIndexOf msgHistory with
    | none => msgHistory
    | some idx =>
      match msgHistory[idx]? with
      | none => msgHistory
      | some orig =>
        let patternTemplate := getPatternTemplate metadata.problemType
        let qualityChecklist := getQualityValidationChecklist metadata.complexityLevel
        let frameworkStatus := generateFrameworkStatusIndicator metadata
        let enhancedContent := enhancedContentOf frameworkStatus orig.contentText
          behavioralPrompt patternTemplate qualityChecklist
        msgHistory.set idx { orig with parts := [ContentPart.textContent enhancedContent] }

/-! ## Conversation-loop start phase (`agent.processGeneration`) -/

/-- The summary-marker truncation at the start of `processGeneration`:
when the session carries a summary marker that is the id of a loaded
message, drop everything before it and re-tag its role as user. -/
def truncateAtSummary (summaryMessageID : String) (msgs : List Message) : List Message :=
  if summaryMessageID = "" then msgs
  else
    match msgs.findIdx? fun m => m.id = summaryMessageID with
    | none => msgs
    | some i =>
      match msgs.drop i with
      | [] => []
      | m :: rest => { m with role := Role.user } :: rest

/-- The parts of the new user message built by `createUserMessage`:
the text content followed by the attachment parts. -/
def userMessageParts (content : String) (attachmentParts : List ContentPart) : List ContentPart :=
  ContentPart.textContent content :: attachmentParts

/-- Environment of the start phase: the outcome of the behavioral
framework invocation.  `none` models a nil framework
(`a.behavioralFramework == nil`); `some (Except.error e)` a
`ProcessRequest` that failed or exceeded its 15-second budget; `some
(Except.ok r)` a successful result. -/
structure GenEnv where
  behavioral : Option (Except String ProcessingResult)

/-- The message history handed to the first `streamAndHandleEvents`
invocation of a run: loaded history truncated at the summary marker,
the new user message appended, and — when the framework is present and
produced (or fell back to) a non-empty behavioral prompt — the
behavioral directives injected into the last user message. -/
def prepareHistory (env : GenEnv) (summaryMessageID : String)
    (msgs : List Message) (userMsg : Message) (content : String) : List Message :=
  let truncated := truncateAtSummary summaryMessageID msgs
  let msgHistory := truncated ++ [userMsg]
  match env.behavioral with
  | none => msgHistory
  | some res =>
    let behavioralResult :=
      match res with
      | Except.error _ => createFallbackBehavioralResult content
      | Except.ok r => r
    if behavioralResult.behavioralPrompt ≠ "" then
      injectBehavioralDirectives msgHistory behavioralResult.behavioralPrompt
        behavioralResult.metadata
    else msgHistory

/-! ## Statement helpers and concrete fixtures -/

/-- A message list with its first message re-tagged as a user turn — the
shape `processGeneration` gives to the truncated history (the spec's
"truncate history to the message at that marker and re-tag its role"). -/
def retagFirstUser : List Message → List Message
  | [] => []
  | m :: rest => { m with role := Role.user } :: rest

/-- The result `Run` returns when the plain session key is already
registered: `ErrSessionBusy`, no stream, nothing registered, published
or deleted, and no execution unit started — in particular no message is
created, so the session's history is untouched. -/
def busyRunResult (reg : Registry) : RunResult :=
  { registry := reg, stream := none, runError := some errSessionBusy,
    published := [], deletes := 0, unitRan := false }

/-- Fixture for the permission-denied dispatch round: two resolvable
tool calls, the first of which fails with the distinguished
permission-denied error, the second of which would succeed; the run is
never cancelled. -/
def c1Env : DispatchEnv :=
  { canceledAt := fun _ => false,
    found := fun _ => true,
    exec := fun i => if i = 0 then ToolExec.denied
                     else ToolExec.result "ok-content" "meta" false }

/-- The two announced tool calls of the fixture round. -/
def c1Calls : List ToolCall :=
  [{ id := "tc1", name := "toolA", input := "in1" },
   { id := "tc2", name := "toolB", input := "in2" }]

/-- The assistant message entering the fixture round (finished with
"tool use" by the stream-complete event). -/
def c1Msg : Message :=
  { id := "a1", role := Role.assistant,
    parts := [ContentPart.finishPart FinishReason.toolUse] }

/-- Summarize environment in which every step succeeds except the final
`sessions.Save`. -/
def c3Env : SummarizeEnv :=
  { model := {},
    listResult := Except.ok [{ id := "m1", role := Role.user, parts := [] }],
    sendResult := Except.ok ("summary text", ⟨10, 20, 0, 0⟩),
    getResult := Except.ok { id := "s1" },
    createResult := Except.ok { id := "sum1", role := Role.assistant, parts := [] },
    saveResult := Except.error "db closed" }

/-- The session `c3Env`'s unit hands to the failing `sessions.Save`. -/
def c3Sess : Session :=
  { id := "s1", summaryMessageID := "sum1", completionTokens := 20,
    promptTokens := 0, cost := 0 + costDelta {} ⟨10, 20, 0, 0⟩ }

/-- The new user message of the augmentation-failure fixture. -/
def c7UserMsg : Message :=
  { id := "u1", role := Role.user, parts := [ContentPart.textContent "hi"] }

/-! ## Registry lemmas -/

theorem Registry.load_del_self (r : Registry) (k : String) : (r.del k).load k = none := by
  induction r with
  | nil => rfl
  | cons e r ih =>
    by_cases h : e.1 = k <;> simp [Registry.del, Registry.load, h, ih]

theorem Registry.load_del_ne (r : Registry) {k k' : String} (h : k' ≠ k) :
    (r.del k).load k' = r.load k' := by
  induction r with
  | nil => rfl
  | cons e r ih =>
    by_cases he : e.1 = k
    · have he' : ¬ e.1 = k' := by rw [he]; exact Ne.symm h
      simp [Registry.del, Registry.load, he, he', ih, Ne.symm h]
    · by_cases he' : e.1 = k' <;>
        simp [Registry.del, Registry.load, he, he', ih, h, Ne.symm h]

theorem Registry.del_eq_of_load_none (r : Registry) (k : String)
    (h : r.load k = none) : r.del k = r := by
  induction r with
  | nil => rfl
  | cons e r ih =>
    by_cases he : e.1 = k
    · simp [Registry.load, he] at h
    · simp [Registry.load, he] at h
      simp [Registry.del, he, ih h]

theorem string_ne_append_summarize (s : String) : s ≠ s ++ "-summarize" := by
  intro h
  have hl := congrArg String.length h
  rw [String.length_append] at hl
  have h10 : ("-summarize" : String).length = 10 := rfl
  omega

end OpenCode

/-! # Claim theorems -/

namespace OpenCode

/-- C9: for every session id and registry state, `Cancel` removes the
entries under both the plain key and the `"-summarize"` key and invokes
the cancellation handle of each entry found; an absent key is a no-op, a
second `Cancel` of the same session is a no-op (idempotent), and
`Cancel` — whose Go signature returns nothing — never reports an
error. -/
theorem c9_cancel_both_keys (r : Registry) (sid : String) :
    Cancel r sid =
      ((r.del sid).del (sid ++ "-summarize"),
       (r.load sid).toList ++ (r.load (sid ++ "-summarize")).toList)
    ∧ (Cancel r sid).1.load sid = none
    ∧ (Cancel r sid).1.load (sid ++ "-summarize") = none
    ∧ Cancel (Cancel r sid).1 sid = ((Cancel r sid).1, [])
    ∧ (r.load sid = none ∧ r.load (sid ++ "-summarize") = none →
        Cancel r sid = (r, [])) := by
  have hne : sid ≠ sid ++ "-summarize" := string_ne_append_summarize sid
  have h1 : Cancel r sid =
      ((r.del sid).del (sid ++ "-summarize"),
       (r.load sid).toList ++ (r.load (sid ++ "-summarize")).toList) := by
    simp [Cancel, Registry.loadAndDelete, Registry.load_del_ne _ (Ne.symm hne)]
  have hload1 : (Cancel r sid).1.load sid = none := by
    rw [h1]
    rw [Registry.load_del_ne _ hne]
    exact Registry.load_del_self r sid
  have hload2 : (Cancel r sid).1.load (sid ++ "-summarize") = none := by
    rw [h1]
    exact Registry.load_del_self _ _
  refine ⟨h1, hload1, hload2, ?_, ?_⟩
  · have h2 : Cancel (Cancel r sid).1 sid =
        (((Cancel r sid).1.del sid).del (sid ++ "-summarize"),
         ((Cancel r sid).1.load sid).toList ++
           ((Cancel r sid).1.load (sid ++ "-summarize")).toList) := by
      simp [Cancel, Registry.loadAndDelete, Registry.load_del_ne _ (Ne.symm hne)]
    rw [h2, hload1, hload2,
      Registry.del_eq_of_load_none _ _ hload1,
      Registry.del_eq_of_load_none _ _ hload2]
    simp
  · rintro ⟨ha, hb⟩
    rw [h1, ha, hb,
      Registry.del_eq_of_load_none _ _ ha]
    rw [Registry.del_eq_of_load_none _ _ hb]
    simp

/-- C9 witness: `Cancel` at a concrete registry holding both keys. -/
theorem c9_cancel_both_keys_witness :
    Cancel ([("s", 1), ("s-summarize", 2), ("t", 3)] : Registry) "s" =
      ([("t", 3)], [1, 2]) := by
  have h := (c9_cancel_both_keys [("s", 1), ("s-summarize", 2), ("t", 3)] "s").1
  rw [h]
  rfl

/-- C2 counterexample: an accepted `Run` whose execution unit panics.
The deferred `RecoverPanic` sends a generic error event on the stream,
but — since the registry `Delete`, the cancellation call, the publish
and the `close` are *not* deferred — the registry entry under the plain
session key is never removed (zero deletes; the entry is still loadable
afterwards) and the stream is never closed, contradicting the claim that
this holds "regardless of how the execution unit finishes". -/
theorem c2_panic_counterexample :
    Run {} [] 7 (fun _ _ => UnitBody.panicked) "s1" "hi" [] =
      { registry := [("s1", 7)], stream := some ([panicErrorEvent], false),
        runError := none, published := [], deletes := 0, unitRan := true }
    ∧ (Run {} [] 7 (fun _ _ => UnitBody.panicked) "s1" "hi" []).registry.load "s1" = some 7
    ∧ (Run {} [] 7 (fun _ _ => UnitBody.panicked) "s1" "hi" []).deletes = 0
    ∧ (Run {} [] 7 (fun _ _ => UnitBody.panicked) "s1" "hi" []).stream =
        some ([panicErrorEvent], false) := by
  refine ⟨rfl, rfl, rfl, rfl⟩

/-- C2 (amended): for every `Run` whose execution unit finishes without
panicking — success, cancellation, or any other error, all delivered as
the terminal event `ev` — the accepted call removes the registry entry
under the plain session key exactly once, publishes `ev`, delivers
exactly `ev` on the returned stream and closes it (while a busy call
returns `ErrSessionBusy` untouched); on a recovered panic, by
`c2_panic_counterexample`, a generic error event is still delivered but
the entry is not removed and the stream is not closed. -/
theorem c2_run_terminal_cleanup (model : Model) (reg : Registry) (handle : Nat)
    (sid content : String) (atts : List Attachment) (ev : AgentEvent) :
    Run model reg handle (fun _ _ => UnitBody.finish ev) sid content atts =
      (if IsSessionBusy reg sid then busyRunResult reg
       else
         { registry := (reg.store sid handle).del sid, stream := some ([ev], true),
           runError := none, published := [ev], deletes := 1, unitRan := true })
    ∧ ((reg.store sid handle).del sid).load sid = none := by
  constructor
  · by_cases h : IsSessionBusy reg sid <;>
      simp [Run, busyRunResult, h]
  · exact Registry.load_del_self _ _

/-- C4: a `Run` while a request is already registered under the
session's plain key fails immediately with `SessionBusy`: no stream is
returned, nothing is registered, published or deleted, and no execution
unit (hence no message creation) is started, leaving the session's
history unchanged. -/
theorem c4_second_run_busy (model : Model) (reg : Registry) (handle : Nat)
    (gen : String → List ContentPart → UnitBody) (sid content : String)
    (atts : List Attachment) (h : IsSessionBusy reg sid = true) :
    Run model reg handle gen sid content atts = busyRunResult reg := by
  simp [Run, busyRunResult, h]

/-- C4 witness: a concrete busy registry. -/
theorem c4_second_run_busy_witness :
    Run {} [("s", 1)] 2 (fun _ _ => UnitBody.panicked) "s" "hello" [] =
      busyRunResult [("s", 1)] :=
  c4_second_run_busy {} [("s", 1)] 2 (fun _ _ => UnitBody.panicked) "s" "hello" []
    (by rfl)

/-- C10: when the active model does not support attachments and the
attachments argument is non-empty, `Run` silently discards all
attachments up front: every observable of the call — registry, stream
events, published events, returned error — is identical to the same call
with no attachments, and no error or event reports the discard. -/
theorem c10_attachments_discarded (model : Model) (reg : Registry) (handle : Nat)
    (gen : String → List ContentPart → UnitBody) (sid content : String)
    (atts : List Attachment) (hm : model.supportsAttachments = false)
    (ha : atts ≠ []) :
    Run model reg handle gen sid content atts =
      Run model reg handle gen sid content [] := by
  simp [Run, hm, ha]

/-- C10 witness: a concrete non-empty attachment list on a model without
attachment support. -/
theorem c10_attachments_discarded_witness :
    Run { supportsAttachments := false } [] 1
        (fun _ parts => UnitBody.finish
          { type := AgentEventType.response, progress := toString parts.length })
        "s" "hello" [{ filePath := "f.png", mimeType := "image/png" }] =
      Run { supportsAttachments := false } [] 1
        (fun _ parts => UnitBody.finish
          { type := AgentEventType.response, progress := toString parts.length })
        "s" "hello" [] :=
  c10_attachments_discarded { supportsAttachments := false } [] 1 _ "s" "hello"
    [{ filePath := "f.png", mimeType := "image/png" }] rfl (by simp)

/-- C8: whatever the rest of the environment, `Summarize`'s unit on a
session with an empty message list publishes the starting progress event
and then exactly one terminal error event carrying
"no messages to summarize" and stops: no further event is published and
no session is ever handed to `sessions.Save`, so the summary marker and
every other session field stay unchanged. -/
theorem c8_summarize_empty (model : Model)
    (send : Except String (String × TokenUsage)) (get : Except String Session)
    (create : Except String Message) (save : Except String Unit) (sid : String) :
    summarizeUnit
        { model := model, listResult := Except.ok [], sendResult := send,
          getResult := get, createResult := create, saveResult := save } sid =
      ([summarizeProgress "Starting summarization...",
        summarizeErrorEvent "no messages to summarize"], []) := by
  rfl

/-- C3: evaluation of `Summarize`'s unit at the failing input — every
step succeeds but the final `sessions.Save` fails.  The unit publishes
the terminal error event and then, because the error branch lacks a
`return`, still publishes the `Done: true` "Summary complete" success
event, contradicting "the sub-flow stops". -/
theorem c3_save_failure_still_publishes_done :
    summarizeUnit c3Env "s1" =
      ([summarizeProgress "Starting summarization...",
        summarizeProgress "Analyzing conversation...",
        summarizeProgress "Generating summary...",
        summarizeProgress "Creating new session...",
        summarizeErrorEvent "failed to save session: db closed",
        { type := AgentEventType.summarize, sessionID := "s1",
          progress := "Summary complete", done := true }], [c3Sess])
    ∧ ((summarizeUnit c3Env "s1").1.getLast? =
        some { type := AgentEventType.summarize, sessionID := "s1",
               progress := "Summary complete", done := true }) := by
  refine ⟨rfl, rfl⟩

/-- C1: evaluation of the dispatch loop at the failing input `c1Env` /
`c1Calls` (two resolvable calls, the first permission-denied, the run
never cancelled).  The `break` in the permission-denied branch only
exits the enclosing `select`, so the loop does *not* stop at call 1: the
second capability is also executed (executed indices `[0, 1]`) and its
normal result overwrites the cancelled result that had just been written
for it — the round ends with a normal, not a cancelled, result for
call 2.  Only the finish reason is set to permission-denied as the claim
states. -/
theorem c1_denied_round_keeps_executing :
    streamDispatch c1Env c1Calls c1Msg =
      ([{ toolCallID := "tc1", content := "Permission denied", isError := true },
        { toolCallID := "tc2", content := "ok-content", metadata := "meta",
          isError := false }],
       c1Msg.addFinish FinishReason.permissionDenied, [0, 1])
    ∧ (c1Msg.addFinish FinishReason.permissionDenied).finishReason =
        FinishReason.permissionDenied := by
  refine ⟨rfl, rfl⟩

/-- C5: on a stream-complete event (and only on that event kind) the
accountant runs exactly once: the session's cost grows by exactly the
sum over the four token kinds of `tokens × price-per-1M / 1e6`,
completion tokens become output + cache-read, prompt tokens become
input + cache-write, and exactly that session is appended to the
persistence calls; every other event kind leaves the session and the
persistence calls untouched.  At the claim's concrete instance — usage
`{input 100, output 50, cacheWrite 0, cacheRead 0}`, prices in = 1,
out = 2 per 1M tokens — the cost grows by exactly
`100 × 1 / 1e6 + 50 × 2 / 1e6`. -/
theorem c5_track_usage_accounting (model : Model) (st : EventState)
    (tcs : List ToolCall) (fr : FinishReason) (usage : TokenUsage) :
    (processEvent model false st (ProviderEvent.eventComplete tcs fr usage) =
      Except.ok { assistantMsg := (st.assistantMsg.setToolCalls tcs).addFinish fr,
                  sess := TrackUsage model usage st.sess,
                  sessionSaves := st.sessionSaves ++ [TrackUsage model usage st.sess] })
    ∧ ((TrackUsage model usage st.sess).cost = st.sess.cost
        + ((usage.inputTokens : ℚ) * model.costPer1MIn / 1000000
          + (usage.outputTokens : ℚ) * model.costPer1MOut / 1000000
          + (usage.cacheCreationTokens : ℚ) * model.costPer1MInCached / 1000000
          + (usage.cacheReadTokens : ℚ) * model.costPer1MOutCached / 1000000))
    ∧ (TrackUsage model usage st.sess).completionTokens
        = usage.outputTokens + usage.cacheReadTokens
    ∧ (TrackUsage model usage st.sess).promptTokens
        = usage.inputTokens + usage.cacheCreationTokens
    ∧ (∀ c, processEvent model false st (ProviderEvent.eventContentDelta c) =
        Except.ok { st with assistantMsg := st.assistantMsg.appendContent c })
    ∧ (∀ c, processEvent model false st (ProviderEvent.eventThinkingDelta c) =
        Except.ok { st with assistantMsg := st.assistantMsg.appendReasoningContent c })
    ∧ (∀ tc, processEvent model false st (ProviderEvent.eventToolUseStart tc) =
        Except.ok { st with assistantMsg := st.assistantMsg.addToolCall tc })
    ∧ (∀ tcid, processEvent model false st (ProviderEvent.eventToolUseStop tcid) =
        Except.ok { st with assistantMsg := st.assistantMsg.finishToolCall tcid })
    ∧ (∀ b m, processEvent model false st (ProviderEvent.eventError b m) =
        Except.error (if b then StreamErr.canceled else StreamErr.providerError m))
    ∧ (TrackUsage { costPer1MIn := 1, costPer1MOut := 2 }
          ⟨100, 50, 0, 0⟩ { id := "s" }).cost
        = 100 * 1 / 1000000 + 50 * 2 / 1000000 := by
  refine ⟨rfl, ?_, rfl, rfl, fun c => rfl, fun c => rfl, fun tc => rfl, fun tcid => rfl,
    ?_, by norm_num [TrackUsage, costDelta]⟩
  · simp [TrackUsage, costDelta]
    ring
  · intro b m
    cases b <;> rfl

/-! ## Lemmas about the start-phase history preparation -/

theorem lastUserMsgIndexOf_concat_user (l : List Message) (u : Message)
    (hrole : u.role = Role.user) :
    lastUserMsgIndexOf (l ++ [u]) = some l.length := by
  induction l with
  | nil => simp [lastUserMsgIndexOf, hrole]
  | cons m l ih => simp [lastUserMsgIndexOf, ih]

theorem set_concat_length {α : Type} (l : List α) (a b : α) :
    (l ++ [a]).set l.length b = l ++ [b] := by
  induction l with
  | nil => rfl
  | cons x l ih => simp [List.set, ih]

theorem retagFirstUser_map_id (l : List Message) :
    (retagFirstUser l).map Message.id = l.map Message.id := by
  cases l <;> simp [retagFirstUser]

theorem truncateAtSummary_eq_retag (marker : String) (msgs : List Message) (i : Nat)
    (hmarker : marker ≠ "")
    (hfind : msgs.findIdx? (fun m => m.id = marker) = some i) :
    truncateAtSummary marker msgs = retagFirstUser (msgs.drop i) := by
  unfold truncateAtSummary
  rw [if_neg hmarker, hfind]
  cases h : msgs.drop i <;> simp [h, retagFirstUser]

/-- The message whose parts `injectBehavioralDirectives` replaces when
grafting directives onto the user message `u`. -/
def enhancedUserMsg (u : Message) (p : String) (md : ProcessingMetadata) : Message :=
  { u with parts := [ContentPart.textContent (enhancedContentOf
      (generateFrameworkStatusIndicator md) u.contentText p
      (getPatternTemplate md.problemType)
      (getQualityValidationChecklist md.complexityLevel))] }

theorem injectBehavioralDirectives_concat_user (l : List Message) (u : Message)
    (p : String) (md : ProcessingMetadata) (hrole : u.role = Role.user) :
    injectBehavioralDirectives (l ++ [u]) p md = l ++ [enhancedUserMsg u p md] := by
  unfold injectBehavioralDirectives
  rw [if_neg (by simp), lastUserMsgIndexOf_concat_user l u hrole]
  dsimp only
  rw [show (l ++ [u])[l.length]? = some u from List.getElem?_concat_length l u]
  exact set_concat_length l u (enhancedUserMsg u p md)

theorem injectBehavioralDirectives_length (h : List Message) (p : String)
    (md : ProcessingMetadata) :
    (injectBehavioralDirectives h p md).length = h.length := by
  unfold injectBehavioralDirectives
  split
  · rfl
  · split
    · rfl
    · split
      · rfl
      · simp

/-- C6: a `Run` on a session whose summary marker is the id of the
message at index `i` of the loaded history (first occurrence) streams
exactly the suffix of the loaded history from index `i` on — its head
re-tagged with role user — followed by the newly created user message
(possibly content-augmented, same id and role); with distinct message
ids, no message before index `i` occurs in the streamed history. -/
theorem c6_summary_marker_truncation (env : GenEnv) (marker : String)
    (msgs : List Message) (i : Nat) (userMsg : Message) (content : String)
    (hmarker : marker ≠ "")
    (hfind : msgs.findIdx? (fun m => m.id = marker) = some i)
    (hrole : userMsg.role = Role.user)
    (hnodup : (msgs.map Message.id).Nodup)
    (hfresh : userMsg.id ∉ msgs.map Message.id) :
    ∃ finalUser : Message,
      prepareHistory env marker msgs userMsg content =
        retagFirstUser (msgs.drop i) ++ [finalUser]
      ∧ finalUser.id = userMsg.id
      ∧ finalUser.role = Role.user
      ∧ ∀ m ∈ msgs.take i, m ∉ prepareHistory env marker msgs userMsg content := by
  have htr : truncateAtSummary marker msgs = retagFirstUser (msgs.drop i) :=
    truncateAtSummary_eq_retag marker msgs i hmarker hfind
  obtain ⟨finalUser, heq, hid, hrole'⟩ :
      ∃ fu : Message,
        prepareHistory env marker msgs userMsg content =
          retagFirstUser (msgs.drop i) ++ [fu]
        ∧ fu.id = userMsg.id ∧ fu.role = Role.user := by
    obtain ⟨beh⟩ := env
    cases beh with
    | none =>
        refine ⟨userMsg, ?_, rfl, hrole⟩
        unfold prepareHistory
        dsimp only
        rw [htr]
    | some res =>
        cases res with
        | error e =>
            refine ⟨enhancedUserMsg userMsg
              (createFallbackBehavioralResult content).behavioralPrompt
              (createFallbackBehavioralResult content).metadata, ?_, rfl, hrole⟩
            unfold prepareHistory
            dsimp only
            rw [if_pos (by simp [createFallbackBehavioralResult]), htr]
            exact injectBehavioralDirectives_concat_user _ userMsg _ _ hrole
        | ok r =>
            by_cases hp : r.behavioralPrompt ≠ ""
            · refine ⟨enhancedUserMsg userMsg r.behavioralPrompt r.metadata, ?_, rfl, hrole⟩
              unfold prepareHistory
              dsimp only
              rw [if_pos hp, htr]
              exact injectBehavioralDirectives_concat_user _ userMsg _ _ hrole
            · refine ⟨userMsg, ?_, rfl, hrole⟩
              unfold prepareHistory
              dsimp only
              rw [if_neg hp, htr]
  refine ⟨finalUser, heq, hid, hrole', ?_⟩
  intro m hm hmem
  rw [heq] at hmem
  have hmid : m.id ∈ (msgs.take i).map Message.id := List.mem_map_of_mem _ hm
  have hsplit : msgs.map Message.id
      = (msgs.take i).map Message.id ++ (msgs.drop i).map Message.id := by
    rw [← List.map_append, List.take_append_drop]
  rcases List.mem_append.mp hmem with hL | hR
  · have hdropid : m.id ∈ (msgs.drop i).map Message.id := by
      rw [← retagFirstUser_map_id]
      exact List.mem_map_of_mem _ hL
    have hnodup' : ((msgs.take i).map Message.id
        ++ (msgs.drop i).map Message.id).Nodup := by
      rw [← hsplit]; exact hnodup
    exact (List.nodup_append.mp hnodup').2.2 hmid hdropid
  · have hm' : m = finalUser := by simpa using hR
    apply hfresh
    have : m.id ∈ msgs.map Message.id := by
      rw [hsplit]; exact List.mem_append_left _ hmid
    rw [hm', hid] at this
    exact this

/-- C6 witness: a two-message history whose second message carries the
marker id. -/
theorem c6_summary_marker_truncation_witness :
    ∃ finalUser : Message,
      prepareHistory ⟨none⟩ "m2"
          [{ id := "m1", role := Role.assistant, parts := [] },
           { id := "m2", role := Role.assistant, parts := [] }]
          { id := "u1", role := Role.user, parts := [ContentPart.textContent "hi"] } "hi" =
        retagFirstUser ([{ id := "m1", role := Role.assistant, parts := [] },
           { id := "m2", role := Role.assistant, parts := [] }].drop 1) ++ [finalUser]
      ∧ finalUser.id = "u1"
      ∧ finalUser.role = Role.user
      ∧ ∀ m ∈ [{ id := "m1", role := Role.assistant, parts := ([] : List ContentPart) },
           { id := "m2", role := Role.assistant, parts := [] }].take 1,
          m ∉ prepareHistory ⟨none⟩ "m2"
            [{ id := "m1", role := Role.assistant, parts := [] },
             { id := "m2", role := Role.assistant, parts := [] }]
            { id := "u1", role := Role.user, parts := [ContentPart.textContent "hi"] } "hi" :=
  c6_summary_marker_truncation ⟨none⟩ "m2" _ 1 _ "hi" (by decide) (by decide) rfl
    (by decide) (by decide)

/-- C7 counterexample: on a run where the behavioral framework's
`ProcessRequest` fails (or times out), the message content handed to the
streaming backend is *not* identical to the no-collaborator run: the
fallback behavioral directives are grafted onto the user message. -/
theorem c7_failure_not_unmodified :
    prepareHistory ⟨some (Except.error "behavioral framework timeout")⟩ "" [] c7UserMsg "hi" ≠
      prepareHistory ⟨none⟩ "" [] c7UserMsg "hi" := by
  decide

/-- C7 (amended): when the behavioral framework invocation fails or
exceeds its 15-second budget, the run is not aborted — it continues with
a history of the same shape — but the user message is not left
unmodified: the fixed fallback behavioral directives
(`createFallbackBehavioralResult`) are injected into it. -/
theorem c7_failure_applies_fallback (e marker : String) (msgs : List Message)
    (userMsg : Message) (content : String) (hrole : userMsg.role = Role.user) :
    prepareHistory ⟨some (Except.error e)⟩ marker msgs userMsg content =
      truncateAtSummary marker msgs ++
        [enhancedUserMsg userMsg
          (createFallbackBehavioralResult content).behavioralPrompt
          (createFallbackBehavioralResult content).metadata]
    ∧ (prepareHistory ⟨some (Except.error e)⟩ marker msgs userMsg content).length
        = (truncateAtSummary marker msgs ++ [userMsg]).length := by
  have heq : prepareHistory ⟨some (Except.error e)⟩ marker msgs userMsg content =
      truncateAtSummary marker msgs ++
        [enhancedUserMsg userMsg
          (createFallbackBehavioralResult content).behavioralPrompt
          (createFallbackBehavioralResult content).metadata] := by
    unfold prepareHistory
    dsimp only
    rw [if_pos (by simp [createFallbackBehavioralResult])]
    exact injectBehavioralDirectives_concat_user _ userMsg _ _ hrole
  refine ⟨heq, ?_⟩
  rw [heq]
  simp

/-- C7 witness: the fallback injection at a concrete failed run. -/
theorem c7_failure_applies_fallback_witness :
    prepareHistory ⟨some (Except.error "timeout")⟩ "" [] c7UserMsg "hi" =
      truncateAtSummary "" [] ++
        [enhancedUserMsg c7UserMsg
          (createFallbackBehavioralResult "hi").behavioralPrompt
          (createFallbackBehavioralResult "hi").metadata]
    ∧ (prepareHistory ⟨some (Except.error "timeout")⟩ "" [] c7UserMsg "hi").length
        = (truncateAtSummary "" [] ++ [c7UserMsg]).length :=
  c7_failure_applies_fallback "timeout" "" [] c7UserMsg "hi" rfl

end OpenCode
